import Mathlib

/-!
Shallow embedding of the OCI / OKE resource-detection core of this
repository: the two metadata providers (`ociMetadata`, `okeMetadata`,
from `internal/metadataproviders/oci/metadata.go` and the `oke` sibling),
the identity-certificate resolver (`getIdentityCertificate`,
`extractTenancyIDFromCertificate`), and the two detectors (`ociDetect`,
`okeDetect`, from `processor/resourcedetectionprocessor/internal/oci`).

HTTP transport is modelled as a function from a request (URL + headers)
to an outcome; response bodies are modelled semantically (a body is
either a valid JSON document given by its parse tree, bytes that
PEM-decode to a certificate, a PEM block that fails X.509 parsing, or
junk bytes).  Go's `encoding/json` unmarshalling into the two response
structs is modelled field by field (missing or null fields decode to
zero values, unknown fields are ignored, type mismatches are errors,
JSON `null` into a pointer target yields a nil pointer without error).
Go panics (nil-pointer dereference, failed type assertion) are modelled
by the `GoRet.crash` constructor.  `float32` fields are modelled as `Rat`.
-/

/-- A JSON document, as the parse tree of a valid JSON body. -/
inductive JsonVal : Type
  | null : JsonVal
  | bool (b : Bool) : JsonVal
  | num (q : Rat) : JsonVal
  | str (s : String) : JsonVal
  | arr (elems : List JsonVal) : JsonVal
  | obj (fields : List (String × JsonVal)) : JsonVal

/-- Character-list prefix test (`strings.HasPrefix`, on the character
level; the strings involved are ASCII). -/
def listStarts : List Char → List Char → Bool
  | _, [] => true
  | [], _ :: _ => false
  | c :: s, d :: p => c == d && listStarts s p

/-- `strings.HasPrefix s pre`. -/
def goHasPrefix (s pre : String) : Bool := listStarts s.data pre.data

/-- Character-wise lower-casing (Go's json field matching is
case-insensitive as a fallback). -/
def strLower (s : String) : String := String.mk (s.data.map Char.toLower)

/-- Go `encoding/json` key lookup inside an object: keys are processed in
order and later duplicates overwrite earlier ones, so the last exact match
wins. -/
def jLookupExact : List (String × JsonVal) → String → Option JsonVal
  | [], _ => none
  | (k, v) :: rest, key =>
    match jLookupExact rest key with
    | some w => some w
    | none => if k == key then some v else none

/-- Go `encoding/json` field matching: an exact key match is preferred,
otherwise a case-insensitive match is accepted. -/
def jLookup (fields : List (String × JsonVal)) (key : String) : Option JsonVal :=
  match jLookupExact fields key with
  | some v => some v
  | none => jLookupExact (fields.map (fun p => (strLower p.fst, p.snd))) (strLower key)

/-- Decode a string-typed struct field: absent or `null` yields the zero
value `""`, a JSON string yields itself, anything else is a type error. -/
def decStrField (fields : List (String × JsonVal)) (key : String) : Except String String :=
  match jLookup fields key with
  | none => .ok ""
  | some .null => .ok ""
  | some (.str s) => .ok s
  | some _ => .error ("json: cannot unmarshal value into string field " ++ key)

/-- Decode a `float32`-typed struct field (modelled as `Rat`). -/
def decFloatField (fields : List (String × JsonVal)) (key : String) : Except String Rat :=
  match jLookup fields key with
  | none => .ok 0
  | some .null => .ok 0
  | some (.num q) => .ok q
  | some _ => .error ("json: cannot unmarshal value into float32 field " ++ key)

/-- Decode an `int`-typed struct field: a fractional JSON number is a
type error in Go. -/
def decIntField (fields : List (String × JsonVal)) (key : String) : Except String Int :=
  match jLookup fields key with
  | none => .ok 0
  | some .null => .ok 0
  | some (.num q) => if q.den == 1 then .ok q.num else .error ("json: cannot unmarshal fractional number into int field " ++ key)
  | some _ => .error ("json: cannot unmarshal value into int field " ++ key)

/-- `OciShapeConfig` from metadata.go (float32 fields modelled as `Rat`). -/
structure OciShapeConfig where
  OCpus : Rat
  MemoryInGBs : Rat
  NetworkingBandwidthInGbps : Rat
  MaxVnicAttachments : Int
deriving DecidableEq

def zeroOciShapeConfig : OciShapeConfig := ⟨0, 0, 0, 0⟩

/-- `OciMetadataReponse` from metadata.go (source typo preserved).
`TenantId` carries no json tag, so Go (un)marshals it under its field
name `TenantId`.  `RawResponse` is Modelled from the spec: the detector
in part_004 reads `oci.RawResponse` (the raw JSON response body retained
for the JPath pass), but metadata.go under src/ does not declare or
populate that field; it is modelled here as the parsed response body. -/
structure OciMetadataReponse where
  TenantId : String
  AvailabilityDomain : String
  FaultDomain : String
  CompartmentId : String
  DisplayName : String
  Hostname : String
  Id : String
  Image : String
  Region : String
  CanonicalRegionName : String
  OciAdName : String
  Shape : String
  ShapeConfig : OciShapeConfig
  RawResponse : JsonVal

/-- Decode the nested `shapeConfig` object field. -/
def decShapeField (fields : List (String × JsonVal)) (key : String)
    (decodeInner : List (String × JsonVal) → Except String OciShapeConfig) :
    Except String OciShapeConfig :=
  match jLookup fields key with
  | none => .ok zeroOciShapeConfig
  | some .null => .ok zeroOciShapeConfig
  | some (.obj inner) => decodeInner inner
  | some _ => .error ("json: cannot unmarshal value into struct field " ++ key)

def unmarshalShapeConfig (fields : List (String × JsonVal)) : Except String OciShapeConfig := do
  let ocpus ← decFloatField fields "ocpus"
  let mem ← decFloatField fields "memoryInGBs"
  let bw ← decFloatField fields "networkingBandwidthInGbps"
  let vnic ← decIntField fields "maxVnicAttachments"
  return ⟨ocpus, mem, bw, vnic⟩

/-- Unmarshal a JSON object into `OciMetadataReponse`, per struct tags. -/
def unmarshalOciFields (fields : List (String × JsonVal)) : Except String OciMetadataReponse := do
  let tenant ← decStrField fields "TenantId"
  let ad ← decStrField fields "availabilityDomain"
  let fd ← decStrField fields "faultDomain"
  let comp ← decStrField fields "compartmentId"
  let dn ← decStrField fields "displayName"
  let hn ← decStrField fields "hostname"
  let i ← decStrField fields "id"
  let img ← decStrField fields "image"
  let reg ← decStrField fields "region"
  let canon ← decStrField fields "canonicalRegionName"
  let adName ← decStrField fields "ociAdName"
  let shape ← decStrField fields "shape"
  let shapeCfg ← decShapeField fields "shapeConfig" unmarshalShapeConfig
  return ⟨tenant, ad, fd, comp, dn, hn, i, img, reg, canon, adName, shape, shapeCfg, .null⟩

/-- `json.Unmarshal(body, &metadata)` with `metadata : *OciMetadataReponse`:
JSON `null` sets the pointer to nil without error; a JSON object decodes
field-by-field; any other JSON value is a type error.  On success the
parsed body is retained in the spec-modelled `RawResponse` field. -/
def ociUnmarshalPtr : JsonVal → Except String (Option OciMetadataReponse)
  | .null => .ok none
  | .obj fields =>
    (unmarshalOciFields fields).map (fun m => some { m with RawResponse := .obj fields })
  | _ => .error "json: cannot unmarshal non-object value into OciMetadataReponse"

/-- `OkeShapeConfig` from the oke provider (identical shape). -/
structure OkeShapeConfig where
  OCpus : Rat
  MemoryInGBs : Rat
  NetworkingBandwidthInGbps : Rat
  MaxVnicAttachments : Int
deriving DecidableEq

def zeroOkeShapeConfig : OkeShapeConfig := ⟨0, 0, 0, 0⟩

/-- `OkeMetadata` from the oke provider: the nested cluster metadata. -/
structure OkeMetadata where
  OkeTm : String
  OkeK8Version : String
  OkePoolId : String
  OkeTenancyId : String
  OkeClusterDisplayName : String
  OkeAvailabilityDomain : String
  OkeClusterId : String
  OkePrivateSubnet : String
  OkeImageName : String
deriving DecidableEq

def zeroOkeMetadata : OkeMetadata := ⟨"", "", "", "", "", "", "", "", ""⟩

/-- `OkeMetadataReponse` from the oke provider (source typo preserved). -/
structure OkeMetadataReponse where
  AvailabilityDomain : String
  FaultDomain : String
  CompartmentId : String
  DisplayName : String
  Hostname : String
  Id : String
  Image : String
  Region : String
  CanonicalRegionName : String
  OciAdName : String
  Shape : String
  ShapeConfig : OkeShapeConfig
  Metadata : OkeMetadata
deriving DecidableEq

def unmarshalOkeShapeConfig (fields : List (String × JsonVal)) : Except String OkeShapeConfig := do
  let ocpus ← decFloatField fields "ocpus"
  let mem ← decFloatField fields "memoryInGBs"
  let bw ← decFloatField fields "networkingBandwidthInGbps"
  let vnic ← decIntField fields "maxVnicAttachments"
  return ⟨ocpus, mem, bw, vnic⟩

def unmarshalOkeMetadata (fields : List (String × JsonVal)) : Except String OkeMetadata := do
  let tm ← decStrField fields "oke-tm"
  let k8v ← decStrField fields "oke-k8version"
  let pool ← decStrField fields "oke-pool-id"
  let ten ← decStrField fields "oke-tenancy-id"
  let cdn ← decStrField fields "oke-cluster-display-name"
  let ad ← decStrField fields "oke-ad"
  let cid ← decStrField fields "oke-cluster-id"
  let priv ← decStrField fields "oke-is-on-private-subnet"
  let img ← decStrField fields "oke-image-name"
  return ⟨tm, k8v, pool, ten, cdn, ad, cid, priv, img⟩

/-- Decode the nested `metadata` object field of the oke response. -/
def decOkeMetaField (fields : List (String × JsonVal)) (key : String) : Except String OkeMetadata :=
  match jLookup fields key with
  | none => .ok zeroOkeMetadata
  | some .null => .ok zeroOkeMetadata
  | some (.obj inner) => unmarshalOkeMetadata inner
  | some _ => .error ("json: cannot unmarshal value into struct field " ++ key)

/-- Decode the nested `shapeConfig` object field of the oke response. -/
def decOkeShapeField (fields : List (String × JsonVal)) (key : String) : Except String OkeShapeConfig :=
  match jLookup fields key with
  | none => .ok zeroOkeShapeConfig
  | some .null => .ok zeroOkeShapeConfig
  | some (.obj inner) => unmarshalOkeShapeConfig inner
  | some _ => .error ("json: cannot unmarshal value into struct field " ++ key)

/-- Unmarshal a JSON object into `OkeMetadataReponse`, per struct tags. -/
def unmarshalOkeFields (fields : List (String × JsonVal)) : Except String OkeMetadataReponse := do
  let ad ← decStrField fields "availabilityDomain"
  let fd ← decStrField fields "faultDomain"
  let comp ← decStrField fields "compartmentId"
  let dn ← decStrField fields "displayName"
  let hn ← decStrField fields "hostname"
  let i ← decStrField fields "id"
  let img ← decStrField fields "image"
  let reg ← decStrField fields "region"
  let canon ← decStrField fields "canonicalRegionName"
  let adName ← decStrField fields "ociAdName"
  let shape ← decStrField fields "shape"
  let shapeCfg ← decOkeShapeField fields "shapeConfig"
  let meta ← decOkeMetaField fields "metadata"
  return ⟨ad, fd, comp, dn, hn, i, img, reg, canon, adName, shape, shapeCfg, meta⟩

/-- `json.Unmarshal(body, &metadata)` with `metadata : *OkeMetadataReponse`. -/
def okeUnmarshalPtr : JsonVal → Except String (Option OkeMetadataReponse)
  | .null => .ok none
  | .obj fields => (unmarshalOkeFields fields).map some
  | _ => .error "json: cannot unmarshal non-object value into OkeMetadataReponse"

/-- An outbound HTTP request: URL plus headers, as built by
`http.NewRequestWithContext` + `req.Header.Add`. -/
structure HttpRequest where
  url : String
  headers : List (String × String)
deriving DecidableEq

/-- A Go `interface\x7b\x7d` value held in a `pkix.AttributeTypeAndValue`:
either a string or some non-string value. -/
inductive PkixValue : Type
  | strVal (s : String) : PkixValue
  | nonStringVal : PkixValue
deriving DecidableEq

/-- One entry of `cert.Subject.Names`. -/
structure PkixName where
  value : PkixValue
deriving DecidableEq

/-- The part of a parsed `x509.Certificate` the program reads. -/
structure OciCertificate where
  subjectNames : List PkixName
deriving DecidableEq

/-- The semantic content of a response body's bytes. -/
inductive RawBody : Type
  | jsonBody (j : JsonVal) : RawBody
  | pemCert (c : OciCertificate) : RawBody
  | pemBlockNotCert : RawBody
  | junkBytes : RawBody

/-- Outcome of `client.Do(req)`: a transport failure, or a response with
a status code, a status text, and a body whose read
(`ioutil.ReadAll`) either fails or yields bytes. -/
inductive DoResult : Type
  | fail (msg : String) : DoResult
  | resp (statusCode : Nat) (status : String) (body : Except String RawBody) : DoResult

/-- The HTTP world: what `client.Do` answers for each request. -/
def World : Type := HttpRequest → DoResult

/-- A request to `url` carrying the fixed bearer header the providers add. -/
def mkBearerRequest (url : String) : HttpRequest :=
  ⟨url, [("Authorization", "Bearer Oracle")]⟩

/-- A Go function outcome: a normal return, or a runtime panic
(nil-pointer dereference / failed type assertion). -/
inductive GoRet (α : Type) : Type
  | crash : GoRet α
  | ret (a : α) : GoRet α
deriving DecidableEq

/-- Result of a `Metadata` call: the requests issued, in order, and the
returned `(response pointer, error)` pair (or a panic). -/
structure MetaOut (R : Type) where
  trace : List HttpRequest
  out : GoRet (Option R × Option String)

def metadataEndpointV2 : String := "http://169.254.169.254/opc/v2/instance/"
def metadataEndpointV1 : String := "http://169.254.169.254/opc/v1/instance/"
def identityCertEndpoint : String := "http://169.254.169.254/opc/v2/identity/cert.pem"

/-- `ociProviderImpl`: the endpoints the bare-instance provider queries. -/
structure OciProviderImpl where
  endpointV1 : String
  endpointV2 : String
  identityCertEndpoint : String
deriving DecidableEq

/-- `NewProvider()` for the bare-instance provider. -/
def ociNewProvider : OciProviderImpl :=
  ⟨metadataEndpointV1, metadataEndpointV2, identityCertEndpoint⟩

/-- `pem.Decode`: the PEM block found in the bytes (`none` when the bytes
hold no PEM block). -/
inductive PemBlock : Type
  | blockCert (c : OciCertificate) : PemBlock
  | blockNotCert : PemBlock

def pemDecode : RawBody → Option PemBlock
  | .pemCert c => some (.blockCert c)
  | .pemBlockNotCert => some .blockNotCert
  | .jsonBody _ => none
  | .junkBytes => none

/-- `getIdentityCertificate` from metadata.go: GET the certificate
endpoint with the bearer header, require status 200, read the body,
PEM-decode it, and parse the block as an X.509 certificate. -/
def getIdentityCertificate (w : World) (certEndpoint : String) : Except String OciCertificate :=
  match w (mkBearerRequest certEndpoint) with
  | .fail msg => .error ("failed to get certificate: " ++ msg)
  | .resp statusCode status body =>
    if statusCode != 200 then
      .error ("oci instance certificate endpoint replied with status code: " ++ status)
    else
      match body with
      | .error msg => .error ("failed to read oci identity certificate endpoint reply: " ++ msg)
      | .ok raw =>
        match pemDecode raw with
        | none => .error "failed to parse the certificate, not valid pem data"
        | some .blockNotCert => .error "failed to parse the certificate: x509: malformed certificate"
        | some (.blockCert c) => .ok c

/-- The loop body of `extractTenancyIDFromCertificate`: the unchecked
type assertion `nameAttr.Value.(string)` panics on a non-string value;
a string value matches when it has the prefix `opc-tenant:`, and the
first match returns its remainder after the prefix. -/
def extractTenancyScan : List PkixName → GoRet String
  | [] => .ret ""
  | attr :: rest =>
    match attr.value with
    | .nonStringVal => .crash
    | .strVal value =>
      if goHasPrefix value "opc-tenant:" then .ret (value.drop "opc-tenant:".length)
      else extractTenancyScan rest

/-- `extractTenancyIDFromCertificate` from metadata.go. -/
def extractTenancyIDFromCertificate (cert : OciCertificate) : GoRet String :=
  extractTenancyScan cert.subjectNames

/-- The tail of `ociProviderImpl.Metadata` after the status checks:
read the body, JSON-decode it, resolve the identity certificate, and
set `TenantId` from it (a nil decoded pointer makes the field
assignment panic). -/
def ociDecodeAndCert (p : OciProviderImpl) (w : World) (trace : List HttpRequest)
    (body : Except String RawBody) : MetaOut OciMetadataReponse :=
  match body with
  | .error msg =>
    ⟨trace, .ret (none, some ("failed to read oci metadata instance endpoint reply: " ++ msg))⟩
  | .ok raw =>
    match raw with
    | .jsonBody j =>
      match ociUnmarshalPtr j with
      | .error msg =>
        ⟨trace, .ret (none, some ("failed to decode Oci instance metadata reply: " ++ msg))⟩
      | .ok mdOpt =>
        match getIdentityCertificate w p.identityCertEndpoint with
        | .error msg =>
          ⟨trace ++ [mkBearerRequest p.identityCertEndpoint],
            .ret (none, some ("failed to retrieve oci identity certificate: " ++ msg))⟩
        | .ok cert =>
          match extractTenancyIDFromCertificate cert with
          | .crash => ⟨trace ++ [mkBearerRequest p.identityCertEndpoint], .crash⟩
          | .ret tid =>
            match mdOpt with
            | none => ⟨trace ++ [mkBearerRequest p.identityCertEndpoint], .crash⟩
            | some m =>
              ⟨trace ++ [mkBearerRequest p.identityCertEndpoint],
                .ret (some { m with TenantId := tid }, none)⟩
    | _ =>
      ⟨trace, .ret (none, some ("failed to decode Oci instance metadata reply: "
        ++ "invalid character in metadata response body"))⟩

/-- `ociProviderImpl.Metadata` from metadata.go: query the v2 endpoint
with the bearer header; a transport failure is terminal; a non-200
status triggers exactly one fallback to the v1 endpoint with the same
header; a non-200 fallback status is a status error carrying the
status text. -/
def ociMetadata (p : OciProviderImpl) (w : World) : MetaOut OciMetadataReponse :=
  match w (mkBearerRequest p.endpointV2) with
  | .fail msg =>
    ⟨[mkBearerRequest p.endpointV2],
      .ret (none, some ("failed to query Oci instance metadata endpoint v2: " ++ msg))⟩
  | .resp statusCode2 _status2 body2 =>
    if statusCode2 != 200 then
      match w (mkBearerRequest p.endpointV1) with
      | .fail msg =>
        ⟨[mkBearerRequest p.endpointV2, mkBearerRequest p.endpointV1],
          .ret (none, some ("failed to query Oci instance metadata endpiont v1: " ++ msg))⟩
      | .resp statusCode1 status1 body1 =>
        if statusCode1 != 200 then
          ⟨[mkBearerRequest p.endpointV2, mkBearerRequest p.endpointV1],
            .ret (none, some ("oci instance metadata endpoint v1 replied with status code: " ++ status1))⟩
        else ociDecodeAndCert p w [mkBearerRequest p.endpointV2, mkBearerRequest p.endpointV1] body1
    else ociDecodeAndCert p w [mkBearerRequest p.endpointV2] body2

/-- `okeProviderImpl`: the endpoints the cluster-node provider queries. -/
structure OkeProviderImpl where
  endpointV2 : String
  endpointV1 : String
deriving DecidableEq

/-- `NewProvider()` for the cluster-node provider. -/
def okeNewProvider : OkeProviderImpl := ⟨metadataEndpointV2, metadataEndpointV1⟩

/-- The tail of `okeProviderImpl.Metadata` after the status checks:
read the body and JSON-decode it (no certificate step). -/
def okeDecode (trace : List HttpRequest) (body : Except String RawBody) :
    MetaOut OkeMetadataReponse :=
  match body with
  | .error msg =>
    ⟨trace, .ret (none, some ("failed to read oke metadata instance endpoint reply: " ++ msg))⟩
  | .ok raw =>
    match raw with
    | .jsonBody j =>
      match okeUnmarshalPtr j with
      | .error msg =>
        ⟨trace, .ret (none, some ("failed to decode Oke instance metadata reply: " ++ msg))⟩
      | .ok mdOpt => ⟨trace, .ret (mdOpt, none)⟩
    | _ =>
      ⟨trace, .ret (none, some ("failed to decode Oke instance metadata reply: "
        ++ "invalid character in metadata response body"))⟩

/-- `okeProviderImpl.Metadata` from the oke provider: same v2-then-v1
fallback protocol as the bare-instance provider, without the
certificate step. -/
def okeMetadata (p : OkeProviderImpl) (w : World) : MetaOut OkeMetadataReponse :=
  match w (mkBearerRequest p.endpointV2) with
  | .fail msg =>
    ⟨[mkBearerRequest p.endpointV2],
      .ret (none, some ("failed to query Oke instance metadata endpoint v2: " ++ msg))⟩
  | .resp statusCode2 _status2 body2 =>
    if statusCode2 != 200 then
      match w (mkBearerRequest p.endpointV1) with
      | .fail msg =>
        ⟨[mkBearerRequest p.endpointV2, mkBearerRequest p.endpointV1],
          .ret (none, some ("failed to query Oke instance metadata endpiont v1: " ++ msg))⟩
      | .resp statusCode1 status1 body1 =>
        if statusCode1 != 200 then
          ⟨[mkBearerRequest p.endpointV2, mkBearerRequest p.endpointV1],
            .ret (none, some ("oke instance metadata endpoint v1 replied with status code: " ++ status1))⟩
        else okeDecode [mkBearerRequest p.endpointV2, mkBearerRequest p.endpointV1] body1
    else okeDecode [mkBearerRequest p.endpointV2] body2

/-- `pcommon.Map.InsertString`: adds the pair only when the key does not
already exist (keys are unique in a `pcommon.Map`). -/
def insertString : List (String × String) → String → String → List (String × String)
  | [], k, v => [(k, v)]
  | p :: rest, k, v => if p.fst == k then p :: rest else p :: insertString rest k v

/-- `pcommon.Map.UpsertString`: updates the value in place when the key
exists, otherwise appends the pair. -/
def upsertString : List (String × String) → String → String → List (String × String)
  | [], k, v => [(k, v)]
  | p :: rest, k, v => if p.fst == k then (k, v) :: rest else p :: upsertString rest k v

/-- Value of a key in an attribute set. -/
def attrLookup : List (String × String) → String → Option String
  | [], _ => none
  | p :: rest, k => if p.fst == k then some p.snd else attrLookup rest k

/-- `AttributeJPathConfig` from the detector configuration: a pair of an
output attribute name and a path expression into the raw JSON body. -/
structure AttributeJPathConfig where
  Name : String
  Path : String
deriving DecidableEq

/-- Digits of a numeric path segment, as a number (`none` when the
segment is empty or has a non-digit). -/
def segToNat (seg : String) : Option Nat :=
  if seg.data ≠ [] ∧ seg.data.all Char.isDigit then
    some (seg.data.foldl (fun n c => n * 10 + (c.toNat - '0'.toNat)) 0)
  else none

/-- Split a path on the dots, character-wise. -/
def splitDotsAux : List Char → List Char → List String
  | [], acc => [String.mk acc.reverse]
  | c :: rest, acc =>
    if c == '.' then String.mk acc.reverse :: splitDotsAux rest []
    else splitDotsAux rest (c :: acc)

def splitDots (path : String) : List String := splitDotsAux path.data []

/-- Modelled from the spec: one lookup step of the gjson dotted-path
evaluator (third-party library) — a segment selects an object field
(first matching key) or, when numeric, an array element; any other
combination is "not found". -/
def gjsonStep (j : JsonVal) (seg : String) : Option JsonVal :=
  match j with
  | .obj fields => fields.lookup seg
  | .arr elems =>
    match segToNat seg with
    | some i => elems.get? i
    | none => none
  | _ => none

/-- Modelled from the spec: `gjson.Get` — split the path on dots and
descend; a missing segment yields "not found" rather than an error. -/
def gjsonGet (j : JsonVal) (path : String) : Option JsonVal :=
  (splitDots path).foldlM gjsonStep j

mutual

/-- Modelled from the spec: plain JSON rendering, used for the string
form of composite gjson results (string escaping not modelled). -/
def jsonRender : JsonVal → String
  | .null => "null"
  | .bool b => if b then "true" else "false"
  | .num q => toString q
  | .str s => "\"" ++ s ++ "\""
  | .arr elems => "[" ++ jsonRenderList elems ++ "]"
  | .obj fields => "\x7b" ++ jsonRenderFields fields ++ "\x7d"

def jsonRenderList : List JsonVal → String
  | [] => ""
  | [j] => jsonRender j
  | j :: rest => jsonRender j ++ "," ++ jsonRenderList rest

def jsonRenderFields : List (String × JsonVal) → String
  | [] => ""
  | [(k, j)] => "\"" ++ k ++ "\":" ++ jsonRender j
  | (k, j) :: rest => "\"" ++ k ++ "\":" ++ jsonRender j ++ "," ++ jsonRenderFields rest

end

/-- Modelled from the spec: `gjson.Result.String()` — a JSON string
yields itself, null yields the empty string, other values their
rendered form. -/
def gjsonString : JsonVal → String
  | .null => ""
  | .bool b => if b then "true" else "false"
  | .num q => toString q
  | .str s => s
  | .arr elems => jsonRender (.arr elems)
  | .obj fields => jsonRender (.obj fields)

/-- Semconv v1.6.1 schema URL returned by both detectors on success. -/
def schemaURL : String := "https://opentelemetry.io/schemas/1.6.1"

/-- The canonical attribute table of the bare-instance detector: the
eight `InsertString` calls of `Detector.Detect` in part_004, applied in
source order to the fresh empty resource. -/
def ociCanonicalAttrs (oci : OciMetadataReponse) : List (String × String) :=
  let attrs := insertString [] "cloud.provider" "oci"
  let attrs := insertString attrs "cloud.account.id" oci.TenantId
  let attrs := insertString attrs "cloud.region" oci.CanonicalRegionName
  let attrs := insertString attrs "cloud.availability_zone" oci.AvailabilityDomain
  let attrs := insertString attrs "host.id" oci.Id
  let attrs := insertString attrs "host.image.id" oci.Image
  let attrs := insertString attrs "oci.compartment.id" oci.CompartmentId
  insertString attrs "oci.shape" oci.Shape

/-- The body of the JPath loop in part_004: evaluate the entry's path on
the raw response; when the value exists, upsert `"oci." ++ name` with
its string form, else leave the attributes unchanged. -/
def ociApplyJPath (raw : JsonVal) (attrs : List (String × String))
    (entry : AttributeJPathConfig) : List (String × String) :=
  match gjsonGet raw entry.Path with
  | some value => upsertString attrs ("oci." ++ entry.Name) (gjsonString value)
  | none => attrs

/-- The JPath loop of part_004 over the configured entries, in order. -/
def ociApplyJPaths (raw : JsonVal) (cfg : List AttributeJPathConfig)
    (attrs : List (String × String)) : List (String × String) :=
  cfg.foldl (ociApplyJPath raw) attrs

/-- `Detector.Detect` of the bare-instance detector (part_004), as a
function of the provider's answer: a provider error is logged and
swallowed into an empty resource with empty schema URL and nil error;
on success the canonical attributes are inserted and, when the JPath
configuration is non-empty, the JPath loop runs over the raw body.
A nil response with a nil error makes the field accesses panic. -/
def ociDetect (attributeJPaths : List AttributeJPathConfig)
    (providerAnswer : Option OciMetadataReponse × Option String) :
    GoRet (List (String × String) × String × Option String) :=
  match providerAnswer.2 with
  | some _ => .ret ([], "", none)
  | none =>
    match providerAnswer.1 with
    | none => .crash
    | some oci =>
      let attrs := ociCanonicalAttrs oci
      let attrs :=
        if attributeJPaths.length != 0 then
          ociApplyJPaths oci.RawResponse attributeJPaths attrs
        else attrs
      .ret (attrs, schemaURL, none)

/-- `Detector.Detect` of the cluster-node detector (the oke detector
embedded in oke_test.go), as a function of the provider's answer. -/
def okeDetect (providerAnswer : Option OkeMetadataReponse × Option String) :
    GoRet (List (String × String) × String × Option String) :=
  match providerAnswer.2 with
  | some _ => .ret ([], "", none)
  | none =>
    match providerAnswer.1 with
    | none => .crash
    | some oke =>
      let attrs := insertString [] "cloud.provider" "oci"
      let attrs := insertString attrs "cloud.platform" "oci_oke"
      let attrs := insertString attrs "cloud.region" oke.CanonicalRegionName
      let attrs := insertString attrs "k8s.cluster.name" oke.Metadata.OkeClusterDisplayName
      let attrs := insertString attrs "cloud.account.id" oke.Metadata.OkeTenancyId
      let attrs := insertString attrs "oci.oke.clusterid" oke.Metadata.OkeClusterId
      let attrs := insertString attrs "oci.oke.k8version" oke.Metadata.OkeK8Version
      .ret (attrs, schemaURL, none)

/-! Helper lemmas about the embedding. -/

lemma ociDecodeAndCert_trace (p : OciProviderImpl) (w : World) (t : List HttpRequest)
    (b : Except String RawBody) :
    (ociDecodeAndCert p w t b).trace = t ∨
    (ociDecodeAndCert p w t b).trace = t ++ [mkBearerRequest p.identityCertEndpoint] := by
  rcases b with msg | raw
  · exact Or.inl rfl
  · rcases raw with j | c | _ | _
    · rcases h : ociUnmarshalPtr j with msg | mdOpt
      · simp [ociDecodeAndCert, h]
      · rcases hc : getIdentityCertificate w p.identityCertEndpoint with msg | cert
        · simp [ociDecodeAndCert, h, hc]
        · rcases he : extractTenancyIDFromCertificate cert with _ | tid
          · simp [ociDecodeAndCert, h, hc, he]
          · rcases mdOpt with _ | m <;> simp [ociDecodeAndCert, h, hc, he]
    · exact Or.inl rfl
    · exact Or.inl rfl
    · exact Or.inl rfl

lemma okeDecode_trace (t : List HttpRequest) (b : Except String RawBody) :
    (okeDecode t b).trace = t := by
  rcases b with msg | raw
  · rfl
  · rcases raw with j | c | _ | _
    · rcases h : okeUnmarshalPtr j with msg | mdOpt <;> simp [okeDecode, h]
    · rfl
    · rfl
    · rfl

lemma attrLookup_upsert (attrs : List (String × String)) (k v : String) :
    attrLookup (upsertString attrs k v) k = some v := by
  induction attrs with
  | nil => simp [upsertString, attrLookup]
  | cons p t ih =>
    by_cases hp : p.fst == k
    · simp [upsertString, hp, attrLookup]
    · simp [upsertString, hp, attrLookup, ih]

/-- Claim C1: for every error returned by the Provider's `Metadata` call,
`Detect` (bare-instance and cluster-node) returns an empty attribute
set, an empty schema URL, and no error — regardless of the response
value and, for the bare-instance variant, of the JPath configuration. -/
theorem C1_detect_swallows_provider_error :
    (∀ (cfg : List AttributeJPathConfig) (resp : Option OciMetadataReponse) (e : String),
        ociDetect cfg (resp, some e) = .ret ([], "", none)) ∧
    (∀ (resp : Option OkeMetadataReponse) (e : String),
        okeDetect (resp, some e) = .ret ([], "", none)) :=
  ⟨fun _ _ _ => rfl, fun _ _ => rfl⟩

def ociTestReponse : OciMetadataReponse :=
  ⟨"tenantId", "availabilityDomain", "faultDomain", "compartmentId", "displayName",
   "hostname", "hostId", "hostImageId", "region", "canonicalRegionName",
   "availability", "shape", zeroOciShapeConfig, .null⟩

def okeTestReponse : OkeMetadataReponse :=
  ⟨"availabilityDomain", "faultDomain", "compartmentId", "displayName", "hostname",
   "id", "image", "region", "canonicalRegionName", "ociAdName", "shape",
   zeroOkeShapeConfig,
   ⟨"oke-tm", "oke-k8version", "oke-pool-id", "oke-tenancy-id", "oke-cluster-display-name",
    "oke-ad", "oke-cluster-id", "oke-is-on-private-subnet", "oke-image-name"⟩⟩

/-- Claim C2: evaluated at the successful mock response of the unit test
in part_003, the bare-instance `Detect` inserts only eight keys and no
`cloud.platform` attribute, although that test expects
`cloud.platform = "oci_compute"`; the cluster-node `Detect` inserts
seven keys, among them `cloud.provider = "oci"`, which the claim's
cluster-node enumeration omits. -/
theorem C2_cloud_platform_not_inserted :
    ociDetect [] (some ociTestReponse, none) =
      .ret ([("cloud.provider", "oci"), ("cloud.account.id", "tenantId"),
        ("cloud.region", "canonicalRegionName"), ("cloud.availability_zone", "availabilityDomain"),
        ("host.id", "hostId"), ("host.image.id", "hostImageId"),
        ("oci.compartment.id", "compartmentId"), ("oci.shape", "shape")], schemaURL, none) ∧
    attrLookup (ociCanonicalAttrs ociTestReponse) "cloud.platform" = none ∧
    okeDetect (some okeTestReponse, none) =
      .ret ([("cloud.provider", "oci"), ("cloud.platform", "oci_oke"),
        ("cloud.region", "canonicalRegionName"),
        ("k8s.cluster.name", "oke-cluster-display-name"),
        ("cloud.account.id", "oke-tenancy-id"), ("oci.oke.clusterid", "oke-cluster-id"),
        ("oci.oke.k8version", "oke-k8version")], schemaURL, none) :=
  ⟨rfl, rfl, rfl⟩

def wNullBody : World := fun r =>
  if r.url == metadataEndpointV2 then .resp 200 "200 OK" (.ok (.jsonBody .null))
  else if r.url == identityCertEndpoint then
    .resp 200 "200 OK" (.ok (.pemCert ⟨[⟨.strVal "opc-tenant:tenantId"⟩]⟩))
  else .resp 404 "404 Not Found" (.ok .junkBytes)

/-- Claim C6: when the v2 endpoint answers 200 with the valid JSON body
`null`, `json.Unmarshal` sets the response pointer to nil without an
error, so the cluster-node `Metadata` returns a nil response paired
with a nil error, and the bare-instance `Metadata` (whose certificate
step succeeds here) panics assigning `TenantId` through the nil
pointer — the all-or-nothing invariant the claim states does not hold
for every body. -/
theorem C6_null_body_nil_response_nil_error :
    okeMetadata okeNewProvider wNullBody =
      ⟨[mkBearerRequest metadataEndpointV2], .ret (none, none)⟩ ∧
    ociMetadata ociNewProvider wNullBody =
      ⟨[mkBearerRequest metadataEndpointV2, mkBearerRequest identityCertEndpoint], .crash⟩ :=
  ⟨rfl, rfl⟩

/-- Claim C10: on a certificate whose subject holds a non-string
attribute value, the unchecked type assertion in
`extractTenancyIDFromCertificate` panics instead of treating the
attribute as non-matching. -/
theorem C10_extract_panics_on_nonstring_value :
    extractTenancyIDFromCertificate ⟨[⟨.nonStringVal⟩]⟩ = .crash ∧
    extractTenancyIDFromCertificate ⟨[⟨.nonStringVal⟩, ⟨.strVal "opc-tenant:tenantId"⟩]⟩ = .crash :=
  ⟨rfl, rfl⟩


/-- Claim C3: for both provider variants — a transport failure on the
version-2 call is terminal and the version-1 endpoint is never queried
(the request trace is exactly the v2 request); a non-200 version-2
status leads to a run whose v1 leg is exactly one request carrying the
same bearer header as the v2 request; and when the version-1 fallback
also answers non-200, `Metadata` fails with a status error carrying the
version-1 status text and issues no further requests. -/
theorem C3_transport_and_fallback :
    (∀ (p : OciProviderImpl) (w : World) (msg : String),
        w (mkBearerRequest p.endpointV2) = .fail msg →
        ociMetadata p w = ⟨[mkBearerRequest p.endpointV2],
          .ret (none, some ("failed to query Oci instance metadata endpoint v2: " ++ msg))⟩) ∧
    (∀ (p : OciProviderImpl) (w : World) (c2 : Nat) (st2 : String) (b2 : Except String RawBody),
        w (mkBearerRequest p.endpointV2) = .resp c2 st2 b2 → c2 ≠ 200 →
        ((ociMetadata p w).trace = [mkBearerRequest p.endpointV2, mkBearerRequest p.endpointV1] ∨
          (ociMetadata p w).trace = [mkBearerRequest p.endpointV2, mkBearerRequest p.endpointV1,
            mkBearerRequest p.identityCertEndpoint]) ∧
        (mkBearerRequest p.endpointV1).headers = (mkBearerRequest p.endpointV2).headers) ∧
    (∀ (p : OciProviderImpl) (w : World) (c2 : Nat) (st2 : String) (b2 : Except String RawBody)
        (c1 : Nat) (st1 : String) (b1 : Except String RawBody),
        w (mkBearerRequest p.endpointV2) = .resp c2 st2 b2 → c2 ≠ 200 →
        w (mkBearerRequest p.endpointV1) = .resp c1 st1 b1 → c1 ≠ 200 →
        ociMetadata p w = ⟨[mkBearerRequest p.endpointV2, mkBearerRequest p.endpointV1],
          .ret (none, some ("oci instance metadata endpoint v1 replied with status code: " ++ st1))⟩) ∧
    (∀ (p : OkeProviderImpl) (w : World) (msg : String),
        w (mkBearerRequest p.endpointV2) = .fail msg →
        okeMetadata p w = ⟨[mkBearerRequest p.endpointV2],
          .ret (none, some ("failed to query Oke instance metadata endpoint v2: " ++ msg))⟩) ∧
    (∀ (p : OkeProviderImpl) (w : World) (c2 : Nat) (st2 : String) (b2 : Except String RawBody),
        w (mkBearerRequest p.endpointV2) = .resp c2 st2 b2 → c2 ≠ 200 →
        (okeMetadata p w).trace = [mkBearerRequest p.endpointV2, mkBearerRequest p.endpointV1] ∧
        (mkBearerRequest p.endpointV1).headers = (mkBearerRequest p.endpointV2).headers) ∧
    (∀ (p : OkeProviderImpl) (w : World) (c2 : Nat) (st2 : String) (b2 : Except String RawBody)
        (c1 : Nat) (st1 : String) (b1 : Except String RawBody),
        w (mkBearerRequest p.endpointV2) = .resp c2 st2 b2 → c2 ≠ 200 →
        w (mkBearerRequest p.endpointV1) = .resp c1 st1 b1 → c1 ≠ 200 →
        okeMetadata p w = ⟨[mkBearerRequest p.endpointV2, mkBearerRequest p.endpointV1],
          .ret (none, some ("oke instance metadata endpoint v1 replied with status code: " ++ st1))⟩) := by
  refine ⟨?_, ?_, ?_, ?_, ?_, ?_⟩
  · intro p w msg h
    unfold ociMetadata
    rw [h]
  · intro p w c2 st2 b2 h hne
    refine ⟨?_, rfl⟩
    have hb : (c2 != 200) = true := bne_iff_ne.mpr hne
    unfold ociMetadata
    simp only [h, hb, if_true]
    rcases hw1 : w (mkBearerRequest p.endpointV1) with msg | ⟨c1, st1, b1⟩
    · exact Or.inl rfl
    · by_cases hc1 : (c1 != 200) = true
      · left
        simp [hc1]
      · rcases ociDecodeAndCert_trace p w
          [mkBearerRequest p.endpointV2, mkBearerRequest p.endpointV1] b1 with h3 | h3
        · exact Or.inl (by simp [hc1, h3])
        · exact Or.inr (by simp [hc1, h3])
  · intro p w c2 st2 b2 c1 st1 b1 h2 hne2 h1 hne1
    have hb2 : (c2 != 200) = true := bne_iff_ne.mpr hne2
    have hb1 : (c1 != 200) = true := bne_iff_ne.mpr hne1
    unfold ociMetadata
    simp only [h2, hb2, if_true, h1, hb1]
  · intro p w msg h
    unfold okeMetadata
    rw [h]
  · intro p w c2 st2 b2 h hne
    refine ⟨?_, rfl⟩
    have hb : (c2 != 200) = true := bne_iff_ne.mpr hne
    unfold okeMetadata
    simp only [h, hb, if_true]
    rcases hw1 : w (mkBearerRequest p.endpointV1) with msg | ⟨c1, st1, b1⟩
    · rfl
    · by_cases hc1 : (c1 != 200) = true
      · simp [hc1]
      · have h3 := okeDecode_trace
          [mkBearerRequest p.endpointV2, mkBearerRequest p.endpointV1] b1
        simp [hc1, h3]
  · intro p w c2 st2 b2 c1 st1 b1 h2 hne2 h1 hne1
    have hb2 : (c2 != 200) = true := bne_iff_ne.mpr hne2
    have hb1 : (c1 != 200) = true := bne_iff_ne.mpr hne1
    unfold okeMetadata
    simp only [h2, hb2, if_true, h1, hb1]

def wC3fail : World := fun _ => .fail "connection refused"

def wC3status : World := fun _ => .resp 404 "404 Not Found" (.ok .junkBytes)

/-- Witness for C3: a world whose transport always fails, and one that
always answers 404. -/
theorem C3_transport_and_fallback_witness :
    ociMetadata ociNewProvider wC3fail = ⟨[mkBearerRequest ociNewProvider.endpointV2],
      .ret (none, some ("failed to query Oci instance metadata endpoint v2: " ++ "connection refused"))⟩ ∧
    (((ociMetadata ociNewProvider wC3status).trace =
        [mkBearerRequest ociNewProvider.endpointV2, mkBearerRequest ociNewProvider.endpointV1] ∨
      (ociMetadata ociNewProvider wC3status).trace =
        [mkBearerRequest ociNewProvider.endpointV2, mkBearerRequest ociNewProvider.endpointV1,
          mkBearerRequest ociNewProvider.identityCertEndpoint]) ∧
      (mkBearerRequest ociNewProvider.endpointV1).headers =
        (mkBearerRequest ociNewProvider.endpointV2).headers) ∧
    ociMetadata ociNewProvider wC3status =
      ⟨[mkBearerRequest ociNewProvider.endpointV2, mkBearerRequest ociNewProvider.endpointV1],
        .ret (none, some ("oci instance metadata endpoint v1 replied with status code: " ++ "404 Not Found"))⟩ ∧
    okeMetadata okeNewProvider wC3fail = ⟨[mkBearerRequest okeNewProvider.endpointV2],
      .ret (none, some ("failed to query Oke instance metadata endpoint v2: " ++ "connection refused"))⟩ ∧
    ((okeMetadata okeNewProvider wC3status).trace =
        [mkBearerRequest okeNewProvider.endpointV2, mkBearerRequest okeNewProvider.endpointV1] ∧
      (mkBearerRequest okeNewProvider.endpointV1).headers =
        (mkBearerRequest okeNewProvider.endpointV2).headers) ∧
    okeMetadata okeNewProvider wC3status =
      ⟨[mkBearerRequest okeNewProvider.endpointV2, mkBearerRequest okeNewProvider.endpointV1],
        .ret (none, some ("oke instance metadata endpoint v1 replied with status code: " ++ "404 Not Found"))⟩ :=
  ⟨C3_transport_and_fallback.1 ociNewProvider wC3fail "connection refused" rfl,
   C3_transport_and_fallback.2.1 ociNewProvider wC3status 404 "404 Not Found"
     (.ok .junkBytes) rfl (by decide),
   C3_transport_and_fallback.2.2.1 ociNewProvider wC3status 404 "404 Not Found"
     (.ok .junkBytes) 404 "404 Not Found" (.ok .junkBytes) rfl (by decide) rfl (by decide),
   C3_transport_and_fallback.2.2.2.1 okeNewProvider wC3fail "connection refused" rfl,
   C3_transport_and_fallback.2.2.2.2.1 okeNewProvider wC3status 404 "404 Not Found"
     (.ok .junkBytes) rfl (by decide),
   C3_transport_and_fallback.2.2.2.2.2 okeNewProvider wC3status 404 "404 Not Found"
     (.ok .junkBytes) 404 "404 Not Found" (.ok .junkBytes) rfl (by decide) rfl (by decide)⟩

/-- Claim C4: when the version-2 endpoint answers non-200 and the
version-1 fallback answers 200 with a JSON body that decodes, the
result is exactly the decoded fallback body (the bare-instance variant
then fills `TenantId` from the certificate step, as it does on a
primary success) — the fallback is transparent to the caller. -/
theorem C4_fallback_transparent :
    (∀ (p : OciProviderImpl) (w : World) (c2 : Nat) (st2 : String) (b2 : Except String RawBody)
        (st1 : String) (j : JsonVal) (m : OciMetadataReponse) (cert : OciCertificate)
        (tid : String),
        w (mkBearerRequest p.endpointV2) = .resp c2 st2 b2 → c2 ≠ 200 →
        w (mkBearerRequest p.endpointV1) = .resp 200 st1 (.ok (.jsonBody j)) →
        ociUnmarshalPtr j = .ok (some m) →
        getIdentityCertificate w p.identityCertEndpoint = .ok cert →
        extractTenancyIDFromCertificate cert = .ret tid →
        ociMetadata p w = ⟨[mkBearerRequest p.endpointV2, mkBearerRequest p.endpointV1,
            mkBearerRequest p.identityCertEndpoint],
          .ret (some { m with TenantId := tid }, none)⟩) ∧
    (∀ (p : OkeProviderImpl) (w : World) (c2 : Nat) (st2 : String) (b2 : Except String RawBody)
        (st1 : String) (j : JsonVal) (m : OkeMetadataReponse),
        w (mkBearerRequest p.endpointV2) = .resp c2 st2 b2 → c2 ≠ 200 →
        w (mkBearerRequest p.endpointV1) = .resp 200 st1 (.ok (.jsonBody j)) →
        okeUnmarshalPtr j = .ok (some m) →
        okeMetadata p w = ⟨[mkBearerRequest p.endpointV2, mkBearerRequest p.endpointV1],
          .ret (some m, none)⟩) := by
  constructor
  · intro p w c2 st2 b2 st1 j m cert tid h2 hne2 h1 hdec hcert hex
    have hb2 : (c2 != 200) = true := bne_iff_ne.mpr hne2
    unfold ociMetadata
    simp [h2, hb2, h1, ociDecodeAndCert, hdec, hcert, hex]
  · intro p w c2 st2 b2 st1 j m h2 hne2 h1 hdec
    have hb2 : (c2 != 200) = true := bne_iff_ne.mpr hne2
    unfold okeMetadata
    simp [h2, hb2, h1, okeDecode, hdec]

/-- Claim C5: a 200 answer from the primary endpoint whose JSON body
decodes yields exactly the decoded response, field for field; the
bare-instance variant additionally fills `TenantId` from the
certificate step rather than from the JSON body. -/
theorem C5_primary_success_decodes_body :
    (∀ (p : OciProviderImpl) (w : World) (st2 : String) (j : JsonVal)
        (m : OciMetadataReponse) (cert : OciCertificate) (tid : String),
        w (mkBearerRequest p.endpointV2) = .resp 200 st2 (.ok (.jsonBody j)) →
        ociUnmarshalPtr j = .ok (some m) →
        getIdentityCertificate w p.identityCertEndpoint = .ok cert →
        extractTenancyIDFromCertificate cert = .ret tid →
        ociMetadata p w = ⟨[mkBearerRequest p.endpointV2, mkBearerRequest p.identityCertEndpoint],
          .ret (some { m with TenantId := tid }, none)⟩) ∧
    (∀ (p : OkeProviderImpl) (w : World) (st2 : String) (j : JsonVal) (m : OkeMetadataReponse),
        w (mkBearerRequest p.endpointV2) = .resp 200 st2 (.ok (.jsonBody j)) →
        okeUnmarshalPtr j = .ok (some m) →
        okeMetadata p w = ⟨[mkBearerRequest p.endpointV2], .ret (some m, none)⟩) := by
  constructor
  · intro p w st2 j m cert tid h2 hdec hcert hex
    unfold ociMetadata
    simp [h2, ociDecodeAndCert, hdec, hcert, hex]
  · intro p w st2 j m h2 hdec
    unfold okeMetadata
    simp [h2, okeDecode, hdec]

def jC45 : JsonVal := .obj [("id", .str "id1"), ("canonicalRegionName", .str "crn")]

def mC45 : OciMetadataReponse :=
  ⟨"", "", "", "", "", "", "id1", "", "", "crn", "", "", zeroOciShapeConfig, jC45⟩

def mOke45 : OkeMetadataReponse :=
  ⟨"", "", "", "", "", "id1", "", "", "crn", "", "", zeroOkeShapeConfig, zeroOkeMetadata⟩

def certC45 : OciCertificate := ⟨[⟨.strVal "opc-tenant:tenantId"⟩]⟩

def wC4 : World := fun r =>
  if r.url == metadataEndpointV2 then .resp 404 "404 Not Found" (.ok .junkBytes)
  else if r.url == metadataEndpointV1 then .resp 200 "200 OK" (.ok (.jsonBody jC45))
  else .resp 200 "200 OK" (.ok (.pemCert certC45))

/-- Witness for C4: v2 answers 404, v1 answers 200 with a decodable
body, the certificate endpoint serves a certificate. -/
theorem C4_fallback_transparent_witness :
    ociMetadata ociNewProvider wC4 =
      ⟨[mkBearerRequest ociNewProvider.endpointV2, mkBearerRequest ociNewProvider.endpointV1,
          mkBearerRequest ociNewProvider.identityCertEndpoint],
        .ret (some { mC45 with TenantId := "tenantId" }, none)⟩ ∧
    okeMetadata okeNewProvider wC4 =
      ⟨[mkBearerRequest okeNewProvider.endpointV2, mkBearerRequest okeNewProvider.endpointV1],
        .ret (some mOke45, none)⟩ :=
  ⟨C4_fallback_transparent.1 ociNewProvider wC4 404 "404 Not Found" (.ok .junkBytes)
     "200 OK" jC45 mC45 certC45 "tenantId" rfl (by decide) rfl rfl rfl rfl,
   C4_fallback_transparent.2 okeNewProvider wC4 404 "404 Not Found" (.ok .junkBytes)
     "200 OK" jC45 mOke45 rfl (by decide) rfl rfl⟩

def wC5 : World := fun r =>
  if r.url == metadataEndpointV2 then .resp 200 "200 OK" (.ok (.jsonBody jC45))
  else if r.url == identityCertEndpoint then .resp 200 "200 OK" (.ok (.pemCert certC45))
  else .fail "unused"

/-- Witness for C5: v2 answers 200 with a decodable body, the
certificate endpoint serves a certificate. -/
theorem C5_primary_success_decodes_body_witness :
    ociMetadata ociNewProvider wC5 =
      ⟨[mkBearerRequest ociNewProvider.endpointV2,
          mkBearerRequest ociNewProvider.identityCertEndpoint],
        .ret (some { mC45 with TenantId := "tenantId" }, none)⟩ ∧
    okeMetadata okeNewProvider wC5 =
      ⟨[mkBearerRequest okeNewProvider.endpointV2], .ret (some mOke45, none)⟩ :=
  ⟨C5_primary_success_decodes_body.1 ociNewProvider wC5 "200 OK" jC45 mC45 certC45
     "tenantId" rfl rfl rfl rfl,
   C5_primary_success_decodes_body.2 okeNewProvider wC5 "200 OK" jC45 mOke45 rfl rfl⟩

/-- Whether a subject attribute value is string-typed. -/
def pkixIsString (a : PkixName) : Bool :=
  match a.value with
  | .strVal _ => true
  | .nonStringVal => false

/-- Modelled from the spec: scan the subject's attribute values in
order; the first string value with the prefix `opc-tenant:` yields its
remainder after the prefix; when none matches the result is the empty
string (not an error). -/
def specTenancyScan : List PkixName → String
  | [] => ""
  | a :: rest =>
    match a.value with
    | .strVal s =>
      if goHasPrefix s "opc-tenant:" then s.drop "opc-tenant:".length
      else specTenancyScan rest
    | .nonStringVal => specTenancyScan rest

/-- Claim C7: on every certificate whose subject attribute values are
all string-typed, the tenancy-id extraction returns (without panicking)
exactly the spec's scan: the remainder after `opc-tenant:` of the first
value with that prefix, or the empty string when none matches. -/
theorem C7_extract_matches_spec_scan :
    ∀ (cert : OciCertificate), cert.subjectNames.all pkixIsString = true →
      extractTenancyIDFromCertificate cert = .ret (specTenancyScan cert.subjectNames) := by
  intro cert h
  obtain ⟨names⟩ := cert
  unfold extractTenancyIDFromCertificate
  simp only at h ⊢
  induction names with
  | nil => rfl
  | cons a t ih =>
    rw [List.all_cons, Bool.and_eq_true] at h
    obtain ⟨ha, ht⟩ := h
    rcases a with ⟨v⟩
    rcases v with s | _
    · by_cases hs : goHasPrefix s "opc-tenant:" <;>
        simp [extractTenancyScan, specTenancyScan, hs, ih ht]
    · exact absurd ha (by simp [pkixIsString])

/-- Witness for C7: a certificate with a non-matching and a matching
string attribute, and one with no matching attribute. -/
theorem C7_extract_matches_spec_scan_witness :
    extractTenancyIDFromCertificate ⟨[⟨.strVal "foo"⟩, ⟨.strVal "opc-tenant:tenantId"⟩]⟩ =
      .ret (specTenancyScan [⟨.strVal "foo"⟩, ⟨.strVal "opc-tenant:tenantId"⟩]) ∧
    specTenancyScan [⟨.strVal "foo"⟩, ⟨.strVal "opc-tenant:tenantId"⟩] = "tenantId" ∧
    extractTenancyIDFromCertificate ⟨[⟨.strVal "foo"⟩]⟩ =
      .ret (specTenancyScan [⟨.strVal "foo"⟩]) ∧
    specTenancyScan [⟨.strVal "foo"⟩] = "" :=
  ⟨C7_extract_matches_spec_scan ⟨[⟨.strVal "foo"⟩, ⟨.strVal "opc-tenant:tenantId"⟩]⟩ rfl,
   rfl,
   C7_extract_matches_spec_scan ⟨[⟨.strVal "foo"⟩]⟩ rfl,
   rfl⟩

/-- Claim C8: every failure mode of the identity-certificate resolution
(non-200 status, body-read failure, PEM-decode failure, X.509 parse
failure) makes `getIdentityCertificate` fail, and any such failure
after a successful decode makes the whole bare-instance `Metadata`
call return no metadata and a wrapped error. -/
theorem C8_cert_failure_fails_call :
    (∀ (p : OciProviderImpl) (w : World) (st2 : String) (j : JsonVal)
        (mdOpt : Option OciMetadataReponse) (msg : String),
        w (mkBearerRequest p.endpointV2) = .resp 200 st2 (.ok (.jsonBody j)) →
        ociUnmarshalPtr j = .ok mdOpt →
        getIdentityCertificate w p.identityCertEndpoint = .error msg →
        ociMetadata p w = ⟨[mkBearerRequest p.endpointV2,
            mkBearerRequest p.identityCertEndpoint],
          .ret (none, some ("failed to retrieve oci identity certificate: " ++ msg))⟩) ∧
    (∀ (w : World) (ep : String) (c : Nat) (st : String) (b : Except String RawBody),
        w (mkBearerRequest ep) = .resp c st b → c ≠ 200 →
        getIdentityCertificate w ep =
          .error ("oci instance certificate endpoint replied with status code: " ++ st)) ∧
    (∀ (w : World) (ep : String) (st : String) (msg : String),
        w (mkBearerRequest ep) = .resp 200 st (.error msg) →
        getIdentityCertificate w ep =
          .error ("failed to read oci identity certificate endpoint reply: " ++ msg)) ∧
    (∀ (w : World) (ep : String) (st : String) (raw : RawBody),
        w (mkBearerRequest ep) = .resp 200 st (.ok raw) → pemDecode raw = none →
        getIdentityCertificate w ep =
          .error "failed to parse the certificate, not valid pem data") ∧
    (∀ (w : World) (ep : String) (st : String),
        w (mkBearerRequest ep) = .resp 200 st (.ok .pemBlockNotCert) →
        getIdentityCertificate w ep =
          .error "failed to parse the certificate: x509: malformed certificate") := by
  refine ⟨?_, ?_, ?_, ?_, ?_⟩
  · intro p w st2 j mdOpt msg h2 hdec hcert
    unfold ociMetadata
    simp [h2, ociDecodeAndCert, hdec, hcert]
  · intro w ep c st b h hne
    have hb : (c != 200) = true := bne_iff_ne.mpr hne
    unfold getIdentityCertificate
    simp [h, hb]
  · intro w ep st msg h
    unfold getIdentityCertificate
    simp [h]
  · intro w ep st raw h hpem
    unfold getIdentityCertificate
    simp [h, hpem]
  · intro w ep st h
    unfold getIdentityCertificate
    simp [h, pemDecode]

def wC8 : World := fun r =>
  if r.url == "cert-status" then .resp 404 "404 Not Found" (.ok .junkBytes)
  else if r.url == "cert-readfail" then .resp 200 "200 OK" (.error "read error")
  else if r.url == "cert-notpem" then .resp 200 "200 OK" (.ok .junkBytes)
  else if r.url == "cert-badcert" then .resp 200 "200 OK" (.ok .pemBlockNotCert)
  else if r.url == metadataEndpointV2 then .resp 200 "200 OK" (.ok (.jsonBody (.obj [])))
  else .resp 404 "404 Not Found" (.ok .junkBytes)

def mC8 : OciMetadataReponse :=
  ⟨"", "", "", "", "", "", "", "", "", "", "", "", zeroOciShapeConfig, .obj []⟩

/-- Witness for C8: the four certificate-endpoint failure modes, and a
full bare-instance run (its certificate endpoint answers 404) that
fails with the wrapped resolver error. -/
theorem C8_cert_failure_fails_call_witness :
    getIdentityCertificate wC8 "cert-status" =
      .error ("oci instance certificate endpoint replied with status code: " ++ "404 Not Found") ∧
    getIdentityCertificate wC8 "cert-readfail" =
      .error ("failed to read oci identity certificate endpoint reply: " ++ "read error") ∧
    getIdentityCertificate wC8 "cert-notpem" =
      .error "failed to parse the certificate, not valid pem data" ∧
    getIdentityCertificate wC8 "cert-badcert" =
      .error "failed to parse the certificate: x509: malformed certificate" ∧
    ociMetadata ociNewProvider wC8 =
      ⟨[mkBearerRequest ociNewProvider.endpointV2,
          mkBearerRequest ociNewProvider.identityCertEndpoint],
        .ret (none, some ("failed to retrieve oci identity certificate: " ++
          "oci instance certificate endpoint replied with status code: 404 Not Found"))⟩ :=
  ⟨C8_cert_failure_fails_call.2.1 wC8 "cert-status" 404 "404 Not Found"
     (.ok .junkBytes) rfl (by decide),
   C8_cert_failure_fails_call.2.2.1 wC8 "cert-readfail" "200 OK" "read error" rfl,
   C8_cert_failure_fails_call.2.2.2.1 wC8 "cert-notpem" "200 OK" .junkBytes rfl rfl,
   C8_cert_failure_fails_call.2.2.2.2 wC8 "cert-badcert" "200 OK" rfl,
   C8_cert_failure_fails_call.1 ociNewProvider wC8 "200 OK" (.obj []) (some mC8)
     "oci instance certificate endpoint replied with status code: 404 Not Found" rfl rfl rfl⟩

/-- Claim C9: on a successful bare-instance result, `Detect` runs the
JPath loop over the raw JSON body after the canonical inserts; an entry
whose path resolves upserts (last write wins on duplicate output names)
the attribute `"oci." ++ name` with the value's string form, and an
entry whose path does not resolve contributes nothing and causes no
error. -/
theorem C9_jpath_extraction :
    (∀ (cfg : List AttributeJPathConfig) (oci : OciMetadataReponse),
        ociDetect cfg (some oci, none) =
          .ret (ociApplyJPaths oci.RawResponse cfg (ociCanonicalAttrs oci), schemaURL, none)) ∧
    (∀ (raw : JsonVal) (attrs : List (String × String)) (e : AttributeJPathConfig),
        gjsonGet raw e.Path = none → ociApplyJPath raw attrs e = attrs) ∧
    (∀ (raw : JsonVal) (attrs : List (String × String)) (e : AttributeJPathConfig) (v : JsonVal),
        gjsonGet raw e.Path = some v →
        ociApplyJPath raw attrs e = upsertString attrs ("oci." ++ e.Name) (gjsonString v)) ∧
    (∀ (raw : JsonVal) (attrs : List (String × String)) (e1 e2 : AttributeJPathConfig)
        (v1 v2 : JsonVal),
        e1.Name = e2.Name → gjsonGet raw e1.Path = some v1 → gjsonGet raw e2.Path = some v2 →
        attrLookup (ociApplyJPaths raw [e1, e2] attrs) ("oci." ++ e2.Name) =
          some (gjsonString v2)) := by
  refine ⟨?_, ?_, ?_, ?_⟩
  · intro cfg oci
    cases cfg <;> rfl
  · intro raw attrs e h
    simp [ociApplyJPath, h]
  · intro raw attrs e v h
    simp [ociApplyJPath, h]
  · intro raw attrs e1 e2 v1 v2 hname h1 h2
    simp only [ociApplyJPaths, List.foldl]
    simp only [ociApplyJPath, h1, h2]
    rw [hname]
    exact attrLookup_upsert _ _ _

def jsonC9 : JsonVal := .obj [("a", .obj [("b", .str "v")])]

def mdC9 : OciMetadataReponse :=
  ⟨"", "", "", "", "", "", "", "", "", "", "", "", zeroOciShapeConfig, jsonC9⟩

/-- Witness for C9: the spec's example body, a resolving path `a.b`, a
non-resolving path `a.c`, and two entries with the same output name. -/
theorem C9_jpath_extraction_witness :
    ociDetect [⟨"x", "a.b"⟩] (some mdC9, none) =
      .ret (ociApplyJPaths mdC9.RawResponse [⟨"x", "a.b"⟩] (ociCanonicalAttrs mdC9),
        schemaURL, none) ∧
    ociApplyJPath jsonC9 [] ⟨"x", "a.b"⟩ =
      upsertString [] ("oci." ++ "x") (gjsonString (.str "v")) ∧
    upsertString [] ("oci." ++ "x") (gjsonString (.str "v")) = [("oci.x", "v")] ∧
    ociApplyJPath jsonC9 [] ⟨"x", "a.c"⟩ = [] ∧
    attrLookup (ociApplyJPaths jsonC9 [⟨"x", "a.b"⟩, ⟨"x", "a"⟩] []) ("oci." ++ "x") =
      some (gjsonString (.obj [("b", .str "v")])) :=
  ⟨C9_jpath_extraction.1 [⟨"x", "a.b"⟩] mdC9,
   C9_jpath_extraction.2.2.1 jsonC9 [] ⟨"x", "a.b"⟩ (.str "v") rfl,
   rfl,
   C9_jpath_extraction.2.1 jsonC9 [] ⟨"x", "a.c"⟩ rfl,
   C9_jpath_extraction.2.2.2 jsonC9 [] ⟨"x", "a.b"⟩ ⟨"x", "a"⟩ (.str "v")
     (.obj [("b", .str "v")]) rfl rfl rfl⟩
